import Mathlib

/-!
Shallow embedding of `src/sw.js` (AWACalc service worker): the cache
partition model backing the Cache API usage, the request classifier
implicit in the fetch listener, the three caching strategies
(navigate / static-asset / api-data branches), the install and activate
listeners, the `checkForUpdates` helper and the message listener.

Cache storage is modelled as a list of named partitions in creation
order, matching `caches.open` (create-if-absent, appended in creation
order) and `caches.match` (searches partitions in creation order and
returns the first hit).  Responses carry the observable fields the
worker inspects or produces: status, body text, and content type.
Network effects are passed in as an explicit `FetchOutcome`.
-/

set_option autoImplicit false

namespace SW

/-- Observable part of a Response as the worker uses it: `status`
(checked by the api-data branch and `checkForUpdates`), body text
(compared by `checkForUpdates`, carried by every cached copy) and the
content type header (set on the placeholder image). `clone()` in the
source yields an identical response, so copies are modelled by reuse. -/
structure Response where
  status : Nat
  body : String
  contentType : String
  deriving DecidableEq, Repr

/-- One named cache partition: `caches.open(name)` handle with its
entries, an association list from request URL (GET request identity)
to the most recently stored response; `put` replaces. -/
structure CachePartition where
  name : String
  entries : List (String × Response)
  deriving DecidableEq, Repr

/-- Whole cache storage: partitions in creation order, the order
`caches.match` searches. -/
abbrev CacheState := List CachePartition

/-- Result of a network `fetch`: either a resolved response or a
rejection (network failure). -/
inductive FetchOutcome where
  | success (r : Response)
  | failure
  deriving DecidableEq, Repr

/-- What an intercepted request carries into the fetch listener:
`request.method`, `request.url`, `request.mode`. -/
structure Request where
  method : String
  url : String
  mode : String
  deriving DecidableEq, Repr

/-- Outcome of a fetch-event handler: a response delivered to the page,
a resolved-but-empty result (`respondWith` of a promise resolving to
`undefined`, i.e. a cache miss with no fallback), or a rejection
propagated to the caller (`throw error`). -/
inductive HandlerResult where
  | response (r : Response)
  | noResponse
  | error
  deriving DecidableEq, Repr

/-- Lookup in one partition's entry list: first entry for the key, as
the Cache API returns the stored response for a request. -/
def entriesLookup (es : List (String × Response)) (k : String) : Option Response :=
  match es.find? (fun e => e.1 == k) with
  | some e => some e.2
  | none => none

/-- `cache.put(request, response)`: overwrite any existing entry for
the key. -/
def entriesPut (es : List (String × Response)) (k : String) (r : Response) :
    List (String × Response) :=
  (k, r) :: es.filter (fun e => e.1 != k)

/-- `caches.open(name)`: idempotent, creates the partition (empty) at
the end of the creation order if absent. -/
def cachesOpen (name : String) (s : CacheState) : CacheState :=
  if s.any (fun p => p.name == name) then s else s ++ [⟨name, []⟩]

/-- Update applied to each partition by a `put` on the partition named
`n`: the named partition gets the new entry, the rest are untouched. -/
def putUpd (n k : String) (r : Response) (p : CachePartition) : CachePartition :=
  if p.name == n then ⟨p.name, entriesPut p.entries k r⟩ else p

/-- `caches.open(name).then(cache => cache.put(k, r))`: open the named
partition and overwrite its entry for `k`. -/
def cachePut (s : CacheState) (name k : String) (r : Response) : CacheState :=
  (cachesOpen name s).map (putUpd name k r)

/-- `caches.match(k)`: search every partition in creation order, return
the first stored response found. -/
def cachesMatch (s : CacheState) (k : String) : Option Response :=
  match s with
  | [] => none
  | p :: rest =>
    match entriesLookup p.entries k with
    | some r => some r
    | none => cachesMatch rest k

/-- Entries of the named partition, if it exists. -/
def partitionEntries (s : CacheState) (name : String) :
    Option (List (String × Response)) :=
  (s.find? (fun p => p.name == name)).map (fun p => p.entries)

/-- `cache.match(k)` on the handle for one named partition. -/
def cacheMatchIn (s : CacheState) (name k : String) : Option Response :=
  match partitionEntries s name with
  | some es => entriesLookup es k
  | none => none

/-- Cache name constants from the head of `sw.js`. -/
def STATIC_CACHE : String := "static-cache-v1"

/-- Dynamic cache partition name, from the head of `sw.js`. -/
def DYNAMIC_CACHE : String := "dynamic-cache-v1"

/-- Assets pre-cached at install time. -/
def STATIC_ASSETS : List String :=
  ["/", "/index.html", "/manifest.json", "/icon-192x192.png",
   "/icon-512x512.png", "/logo.png"]

/-- Whitelist retained by the activate listener. -/
def cacheWhitelist : List String := [STATIC_CACHE, DYNAMIC_CACHE]

/-- Substring test standing in for `String.includes` in the source. -/
def strContains (s pat : String) : Bool :=
  (List.range (s.length + 1)).any
    (fun i => (s.toList.drop i).take pat.length == pat.toList)

/-- Character-level equivalent of `String.startsWith`, standing in for
`url.startsWith(...)` in the source. -/
def strStartsWith (s pre : String) : Bool :=
  s.toList.take pre.length == pre.toList

/-- Character-level equivalent of `String.endsWith`: `s` ends with
`suf`. -/
def strEndsWith (s suf : String) : Bool :=
  s.toList.drop (s.length - suf.length) == suf.toList

/-- Extension set of the static-asset branch's URL test. -/
def staticExtensions : List String :=
  ["css", "js", "png", "jpg", "jpeg", "gif", "ico", "svg",
   "woff", "woff2", "ttf", "eot"]

/-- Extension set of the image-fallback test inside the static-asset
branch. -/
def imageExtensions : List String := ["png", "jpg", "jpeg", "gif", "ico", "svg"]

/-- Semantics of the source's regex test: a pattern of the shape
`\.(e1|e2|...)$` applied to the full URL string holds exactly when the
URL ends with a dot followed by one of the alternatives. -/
def matchesExtAtEnd (url : String) (exts : List String) : Bool :=
  exts.any (fun e => strEndsWith url ("." ++ e))

/-- Routing decision of the fetch listener. -/
inductive RequestClassification where
  | Skip
  | Navigate
  | StaticAsset
  | ApiData
  deriving DecidableEq, Repr

/-- Request classifier, read off the guard structure of the fetch
listener: non-GET, chrome-extension scheme and analytics/telemetry
URLs fall through unintercepted; navigations take the navigate branch;
URLs whose full text ends with a static-asset extension take the
static-asset branch; everything else takes the api/data branch. -/
def classify (req : Request) : RequestClassification :=
  if req.method != "GET" then .Skip
  else if strStartsWith req.url "chrome-extension://" then .Skip
  else if strContains req.url "analytics" || strContains req.url "telemetry" then .Skip
  else if req.mode == "navigate" then .Navigate
  else if matchesExtAtEnd req.url staticExtensions then .StaticAsset
  else .ApiData

/-- Install listener: open the static partition and `addAll` the static
assets, each fetched from the network (`fetched` gives the response the
network returns for each asset URL). -/
def installHandler (s : CacheState) (fetched : String → Response) : CacheState :=
  STATIC_ASSETS.foldl (fun st url => cachePut st STATIC_CACHE url (fetched url))
    (cachesOpen STATIC_CACHE s)

/-- Activate listener's cache sweep: delete every partition whose name
is not in the whitelist. -/
def activateHandler (s : CacheState) : CacheState :=
  s.filter (fun p => cacheWhitelist.contains p.name)

/-- Navigate branch of the fetch listener: network-first; on success
store a clone into the dynamic partition and return the live response;
on failure fall back to `caches.match(request)`, then to
`caches.match('/index.html')`. -/
def navigateHandler (s : CacheState) (url : String) (fo : FetchOutcome) :
    CacheState × HandlerResult :=
  match fo with
  | .success r => (cachePut s DYNAMIC_CACHE url r, .response r)
  | .failure =>
    match cachesMatch s url with
    | some cr => (s, .response cr)
    | none =>
      match cachesMatch s "/index.html" with
      | some ir => (s, .response ir)
      | none => (s, .noResponse)

/-- Placeholder markup returned for failed image requests. -/
def placeholderSvgMarkup : String :=
  "<svg xmlns=\"http://www.w3.org/2000/svg\" width=\"100\" height=\"100\" viewBox=\"0 0 24 24\"><path fill=\"#cccccc\" d=\"M12 2C6.48 2 2 6.48 2 12s4.48 10 10 10 10-4.48 10-10S17.52 2 12 2zm-2 15l-5-5 1.41-1.41L10 14.17l7.59-7.59L19 8l-9 9z\"/></svg>"

/-- Placeholder image response: `new Response(svg, Content-Type
image/svg+xml)` (default status 200). -/
def placeholderImage : Response :=
  { status := 200, body := placeholderSvgMarkup, contentType := "image/svg+xml" }

/-- Static-asset branch of the fetch listener: cache-first. On a hit,
return the cached response and apply the background-refresh fetch
(successful refreshes overwrite the dynamic partition entry, failures
are swallowed). On a miss, fetch; on success store into the dynamic
partition and return; on failure return the placeholder image for
image-extension URLs, otherwise rethrow. `fo` is the network's outcome
for this request, used by whichever path fetches. -/
def staticAssetHandler (s : CacheState) (url : String) (fo : FetchOutcome) :
    CacheState × HandlerResult :=
  match cachesMatch s url with
  | some cr =>
    match fo with
    | .success r => (cachePut s DYNAMIC_CACHE url r, .response cr)
    | .failure => (s, .response cr)
  | none =>
    match fo with
    | .success r => (cachePut s DYNAMIC_CACHE url r, .response r)
    | .failure =>
      if matchesExtAtEnd url imageExtensions then (s, .response placeholderImage)
      else (s, .error)

/-- Api/data branch of the fetch listener: network-first; store a clone
into the dynamic partition only when the status is 200, return the live
response either way; on network failure return the result of
`caches.match(request)` (no response at all on a miss). -/
def apiDataHandler (s : CacheState) (url : String) (fo : FetchOutcome) :
    CacheState × HandlerResult :=
  match fo with
  | .success r =>
    if r.status == 200 then (cachePut s DYNAMIC_CACHE url r, .response r)
    else (s, .response r)
  | .failure =>
    match cachesMatch s url with
    | some cr => (s, .response cr)
    | none => (s, .noResponse)

/-- Notification raised via `registration.showNotification`. -/
structure Notification where
  title : String
  body : String
  icon : String
  tag : String
  deriving DecidableEq, Repr

/-- Notification raised by `checkForUpdates` when the texts differ. -/
def updateNotification : Notification :=
  { title := "AWA Calculator Update",
    body := "A new version is available. Refresh to update.",
    icon := "/icon-192x192.png", tag := "update-available" }

/-- Update-check outcome, the spec's `UpdateResult` names mapped onto
the code paths of `checkForUpdates`: the notification branch is
NewVersionAvailable; reaching the comparison with nothing to compare or
with equal texts is UpToDate; a rejected fetch (the catch branch) or a
non-200 status (the check silently skipped) is CheckFailed. -/
inductive UpdateResult where
  | UpToDate
  | NewVersionAvailable
  | CheckFailed
  deriving DecidableEq, Repr

/-- Mirrors `checkForUpdates`: open the static partition, fetch
`/index.html` bypassing the cache (`fo` is that fetch's outcome); on a
200 response compare its text with the snapshot stored in the static
partition — notify when they differ, store nothing ever.  Returns the
cache state, the update result and the notifications raised. -/
def checkForUpdates (s : CacheState) (fo : FetchOutcome) :
    CacheState × UpdateResult × List Notification :=
  let s' := cachesOpen STATIC_CACHE s
  match fo with
  | .failure => (s', .CheckFailed, [])
  | .success r =>
    if r.status == 200 then
      match cacheMatchIn s' STATIC_CACHE "/index.html" with
      | none => (s', .UpToDate, [])
      | some cr =>
        if cr.body != r.body then (s', .NewVersionAvailable, [updateNotification])
        else (s', .UpToDate, [])
    else (s', .CheckFailed, [])

/-- Message listener: a `CACHE_DATA` message stores its payload (as a
response body) at the fixed key in the dynamic partition; every other
message leaves the caches alone (`SKIP_WAITING` only toggles worker
activation). -/
def messageHandler (s : CacheState) (msgType payload : String) : CacheState :=
  if msgType == "CACHE_DATA" then
    cachePut s DYNAMIC_CACHE "/api/calculation-data"
      { status := 200, body := payload, contentType := "" }
  else s

/-- URL with any query string removed: characters before the first
question mark. -/
def stripQuery (url : String) : String :=
  (url.toList.takeWhile (fun c => c != '?')).asString

/-- Classifier written from the spec claim's words, for comparison with
`classify`: identical rules except that rule 5 tests the static-asset
extension set against the URL path — "including when a query string
follows the path" — so the extension match ignores any query string. -/
def specClassify (req : Request) : RequestClassification :=
  if req.method != "GET" then .Skip
  else if strStartsWith req.url "chrome-extension://" then .Skip
  else if strContains req.url "analytics" || strContains req.url "telemetry" then .Skip
  else if req.mode == "navigate" then .Navigate
  else if matchesExtAtEnd (stripQuery req.url) staticExtensions then .StaticAsset
  else .ApiData

/-- Response body used as the install-time copy of the shell document
in the concrete offline-navigation scenario. -/
def rOldShell : Response := ⟨200, "<html>old shell</html>", "text/html"⟩

/-- Response body used as the newer navigation-fetched copy of the
shell document in the concrete offline-navigation scenario. -/
def rNewShell : Response := ⟨200, "<html>new shell</html>", "text/html"⟩

/-- Cache state right after the install listener runs on an empty
storage, every static asset fetched as `rOldShell`. -/
def postInstallState : CacheState := installHandler [] (fun _ => rOldShell)

/-- Cache state after a successful navigation to `/index.html` stored
the newer shell through the navigate branch. -/
def afterNavigateState : CacheState :=
  (navigateHandler postInstallState "/index.html" (.success rNewShell)).1

/-! Helper lemmas about the cache-storage operations. -/

theorem entriesLookup_entriesPut_self (es : List (String × Response)) (k : String)
    (r : Response) : entriesLookup (entriesPut es k r) k = some r := by
  simp [entriesLookup, entriesPut, List.find?]

theorem cachesMatch_append_single_empty (s : CacheState) (n k : String) :
    cachesMatch (s ++ [⟨n, []⟩]) k = cachesMatch s k := by
  induction s with
  | nil => simp [cachesMatch, entriesLookup, List.find?]
  | cons p rest ih =>
    simp only [List.cons_append, cachesMatch]
    cases entriesLookup p.entries k <;> simp [ih]

theorem cachesMatch_cachesOpen (n : String) (s : CacheState) (k : String) :
    cachesMatch (cachesOpen n s) k = cachesMatch s k := by
  unfold cachesOpen
  by_cases h : s.any (fun p => p.name == n) = true
  · simp [h]
  · simp [h, cachesMatch_append_single_empty]

theorem mem_cachesOpen {p : CachePartition} {s : CacheState} (n : String) (h : p ∈ s) :
    p ∈ cachesOpen n s := by
  unfold cachesOpen
  by_cases ha : s.any (fun q => q.name == n) = true
  · simpa [ha]
  · simp only [ha, if_neg]
    exact List.mem_append_left _ h

theorem cacheMatchIn_cachesOpen (n : String) (s : CacheState) (m k : String) :
    cacheMatchIn (cachesOpen n s) m k = cacheMatchIn s m k := by
  unfold cachesOpen
  by_cases h : s.any (fun p => p.name == n) = true
  · simp [h]
  · simp only [h, if_neg, Bool.false_eq_true, not_false_iff, if_false]
    unfold cacheMatchIn partitionEntries
    rw [List.find?_append]
    cases hf : s.find? (fun p => p.name == m) with
    | some p => simp [hf]
    | none =>
      simp only [hf, Option.none_or, Option.map]
      by_cases hnm : (n == m) = true
      · simp [List.find?, hnm, entriesLookup, Option.map]
      · simp [List.find?, hnm, Option.map]

theorem any_name_cachesOpen (n : String) (s : CacheState) :
    (cachesOpen n s).any (fun p => p.name == n) = true := by
  unfold cachesOpen
  by_cases h : s.any (fun p => p.name == n) = true
  · simp [h]
  · simp [h, List.any_append, List.any]

theorem partitionEntries_mapPut_ne (t : CacheState) (n m k : String) (r : Response)
    (h : m ≠ n) :
    partitionEntries (t.map (putUpd n k r)) m = partitionEntries t m := by
  induction t with
  | nil => rfl
  | cons q rest ih =>
    have hname : (putUpd n k r q).name = q.name := by
      unfold putUpd; split <;> rfl
    simp only [List.map_cons, partitionEntries, List.find?, hname]
    by_cases hq : (q.name == m) = true
    · have hqn : (q.name == n) = false := by
        have : q.name = m := by simpa using hq
        simp [this, h]
      simp [hq, putUpd, hqn]
    · simp only [hq, Bool.false_eq_true, if_false]
      simpa [partitionEntries] using ih

theorem partitionEntries_cachesOpen_ne (n : String) (s : CacheState) (m : String)
    (h : m ≠ n) : partitionEntries (cachesOpen n s) m = partitionEntries s m := by
  unfold cachesOpen
  by_cases ha : s.any (fun p => p.name == n) = true
  · simp [ha]
  · simp only [ha, Bool.false_eq_true, not_false_iff, if_false]
    unfold partitionEntries
    rw [List.find?_append]
    cases hf : s.find? (fun p => p.name == m) with
    | some p => simp [hf]
    | none => simp [hf, List.find?, (by simp [Ne.symm h] : (n == m) = false)]

theorem partitionEntries_cachePut_ne (s : CacheState) (n m k : String) (r : Response)
    (h : m ≠ n) : partitionEntries (cachePut s n k r) m = partitionEntries s m := by
  unfold cachePut
  rw [partitionEntries_mapPut_ne _ _ _ _ _ h, partitionEntries_cachesOpen_ne _ _ _ h]

theorem cacheMatchIn_cachePut_ne (s : CacheState) (n m k k' : String) (r : Response)
    (h : m ≠ n) : cacheMatchIn (cachePut s n k r) m k' = cacheMatchIn s m k' := by
  unfold cacheMatchIn
  rw [partitionEntries_cachePut_ne _ _ _ _ _ h]

theorem partitionEntries_mapPut_self (t : CacheState) (n k : String) (r : Response)
    (hex : t.any (fun p => p.name == n) = true) :
    ∃ es, partitionEntries (t.map (putUpd n k r)) n = some (entriesPut es k r) := by
  induction t with
  | nil => simp at hex
  | cons q rest ih =>
    by_cases hq : (q.name == n) = true
    · refine ⟨q.entries, ?_⟩
      simp [partitionEntries, List.find?, putUpd, hq]
    · simp only [List.any_cons, hq, Bool.false_or] at hex
      obtain ⟨es, hes⟩ := ih hex
      refine ⟨es, ?_⟩
      have hname : (putUpd n k r q).name = q.name := by
        unfold putUpd; split <;> rfl
      simp only [List.map_cons, partitionEntries, List.find?, hname, hq,
        Bool.false_eq_true, if_false]
      simpa [partitionEntries] using hes

theorem cacheMatchIn_cachePut_self (s : CacheState) (n k : String) (r : Response) :
    cacheMatchIn (cachePut s n k r) n k = some r := by
  obtain ⟨es, hes⟩ :=
    partitionEntries_mapPut_self (cachesOpen n s) n k r (any_name_cachesOpen n s)
  unfold cacheMatchIn cachePut
  rw [hes]
  exact entriesLookup_entriesPut_self es k r

theorem cachesMatch_mapPut (t : CacheState) (n k : String) (r : Response)
    (hall : ∀ p ∈ t, p.name ≠ n → entriesLookup p.entries k = none)
    (hex : t.any (fun p => p.name == n) = true) :
    cachesMatch (t.map (putUpd n k r)) k = some r := by
  induction t with
  | nil => simp at hex
  | cons q rest ih =>
    by_cases hq : (q.name == n) = true
    · simp [cachesMatch, putUpd, hq, entriesLookup_entriesPut_self]
    · have hqn : q.name ≠ n := by simpa using hq
      have hnone := hall q (List.mem_cons_self _ _) hqn
      simp only [List.any_cons, hq, Bool.false_or] at hex
      have := ih (fun p hp hpn => hall p (List.mem_cons_of_mem _ hp) hpn) hex
      simp only [List.map_cons, cachesMatch, putUpd, hq, Bool.false_eq_true,
        if_false, hnone]
      exact this

theorem cachesMatch_cachePut_first (s : CacheState) (n k : String) (r : Response)
    (h : ∀ p ∈ s, p.name ≠ n → entriesLookup p.entries k = none) :
    cachesMatch (cachePut s n k r) k = some r := by
  unfold cachePut
  apply cachesMatch_mapPut _ _ _ _ _ (any_name_cachesOpen n s)
  intro p hp hpn
  unfold cachesOpen at hp
  by_cases ha : s.any (fun q => q.name == n) = true
  · rw [if_pos ha] at hp
    exact h p hp hpn
  · rw [if_neg ha] at hp
    rcases List.mem_append.mp hp with hmem | hmem
    · exact h p hmem hpn
    · simp only [List.mem_singleton] at hmem
      subst hmem
      simp at hpn

theorem cachesMatch_eq_none (s : CacheState) (k : String)
    (h : cachesMatch s k = none) : ∀ p ∈ s, entriesLookup p.entries k = none := by
  induction s with
  | nil => intro p hp; simp at hp
  | cons q rest ih =>
    intro p hp
    unfold cachesMatch at h
    cases hl : entriesLookup q.entries k with
    | some r => rw [hl] at h; exact absurd h (by simp)
    | none =>
      rw [hl] at h
      rcases List.mem_cons.mp hp with rfl | hmem
      · exact hl
      · exact ih h p hmem

/-- State component of `checkForUpdates` on every path: the static
partition is opened and nothing is ever stored. -/
theorem checkForUpdates_state (s : CacheState) (fo : FetchOutcome) :
    (checkForUpdates s fo).1 = cachesOpen STATIC_CACHE s := by
  unfold checkForUpdates
  cases fo with
  | failure => rfl
  | success r =>
    by_cases st : (r.status == 200) = true
    · simp only [st, if_true]
      cases hm : cacheMatchIn (cachesOpen STATIC_CACHE s) STATIC_CACHE "/index.html" with
      | none => rfl
      | some cr => by_cases hb : (cr.body != r.body) = true <;> simp [hb]
    · simp [st]

/-- Names of the partitions surviving the activate sweep: the original
name list filtered by the whitelist. -/
theorem activateHandler_names (s : CacheState) :
    (activateHandler s).map (fun p => p.name) =
      (s.map (fun p => p.name)).filter (fun n => cacheWhitelist.contains n) := by
  induction s with
  | nil => rfl
  | cons q rest ih =>
    unfold activateHandler at ih ⊢
    by_cases hq : q.name ∈ cacheWhitelist
    · simpa [List.filter_cons, hq] using ih
    · simpa [List.filter_cons, hq] using ih

/-! Claim theorems. -/

/-- C2 counterexample: a GET stylesheet URL with a query string after
the path. The claim's classifier (extension test on the path, query
string allowed to follow) says StaticAsset, but the source applies its
regex to the end of the full URL, so the request takes the api/data
branch instead. -/
theorem classify_query_string_counterexample :
    specClassify ⟨"GET", "https://app.example/styles/main.css?v=2", "no-cors"⟩
      = .StaticAsset ∧
    classify ⟨"GET", "https://app.example/styles/main.css?v=2", "no-cors"⟩
      = .ApiData ∧
    classify ⟨"GET", "https://app.example/styles/main.css?v=2", "no-cors"⟩
      ≠ .StaticAsset := by
  decide

/-- C2 (amended): the classifier is a pure function of method, URL and
mode, applying the six rules in priority order, where rule 5 matches
the extension set against the end of the full URL text — a URL whose
path has a static-asset extension but is followed by a query string is
not classified StaticAsset (it falls to ApiData). -/
theorem classify_priority_rules (m u mo : String) :
    (m ≠ "GET" → classify ⟨m, u, mo⟩ = .Skip) ∧
    (m = "GET" → strStartsWith u "chrome-extension://" = true →
      classify ⟨m, u, mo⟩ = .Skip) ∧
    (m = "GET" → strStartsWith u "chrome-extension://" = false →
      (strContains u "analytics" || strContains u "telemetry") = true →
      classify ⟨m, u, mo⟩ = .Skip) ∧
    (m = "GET" → strStartsWith u "chrome-extension://" = false →
      (strContains u "analytics" || strContains u "telemetry") = false →
      mo = "navigate" → classify ⟨m, u, mo⟩ = .Navigate) ∧
    (m = "GET" → strStartsWith u "chrome-extension://" = false →
      (strContains u "analytics" || strContains u "telemetry") = false →
      mo ≠ "navigate" → matchesExtAtEnd u staticExtensions = true →
      classify ⟨m, u, mo⟩ = .StaticAsset) ∧
    (m = "GET" → strStartsWith u "chrome-extension://" = false →
      (strContains u "analytics" || strContains u "telemetry") = false →
      mo ≠ "navigate" → matchesExtAtEnd u staticExtensions = false →
      classify ⟨m, u, mo⟩ = .ApiData) := by
  refine ⟨?_, ?_, ?_, ?_, ?_, ?_⟩ <;> intros <;> subst_vars <;> simp_all [classify]

/-- Witness for `classify_priority_rules` at a concrete asset URL. -/
theorem classify_priority_rules_witness :
    classify ⟨"GET", "https://app.example/logo.png", "no-cors"⟩ = .StaticAsset :=
  (classify_priority_rules "GET" "https://app.example/logo.png" "no-cors").2.2.2.2.1
    rfl (by decide) (by decide) (by decide) (by decide)

/-- C3: in the static-asset branch, on a cache miss with a failed
network fetch, image-extension URLs get the fixed placeholder response
(inline SVG markup, content type image/svg+xml) and the cache state is
untouched, while non-image static assets propagate the error. -/
theorem staticAsset_offline_fallback (s : CacheState) (url : String)
    (h : cachesMatch s url = none) :
    (matchesExtAtEnd url imageExtensions = true →
      staticAssetHandler s url .failure = (s, .response placeholderImage)) ∧
    (matchesExtAtEnd url imageExtensions = false →
      staticAssetHandler s url .failure = (s, .error)) ∧
    placeholderImage.contentType = "image/svg+xml" ∧
    placeholderImage.body = placeholderSvgMarkup := by
  refine ⟨?_, ?_, rfl, rfl⟩ <;> intro hi <;> simp [staticAssetHandler, h, hi]

/-- Witness for `staticAsset_offline_fallback`: empty cache, a png URL
gets the placeholder, a css URL propagates the error. -/
theorem staticAsset_offline_fallback_witness :
    staticAssetHandler [] "/logo.png" .failure = ([], .response placeholderImage) ∧
    staticAssetHandler [] "/app.css" .failure = ([], .error) :=
  ⟨(staticAsset_offline_fallback [] "/logo.png" rfl).1 (by decide),
   (staticAsset_offline_fallback [] "/app.css" rfl).2.1 (by decide)⟩

/-- C4: the api/data branch stores into the dynamic partition exactly
when the resolved status is 200, returns the live response in either
case; on network failure it returns the cross-partition cache lookup,
and a miss leaves the caller with no response. -/
theorem apiData_strategy (s : CacheState) (url : String) (r cr : Response) :
    ((r.status = 200 →
        cacheMatchIn (apiDataHandler s url (.success r)).1 DYNAMIC_CACHE url = some r) ∧
     (r.status ≠ 200 → (apiDataHandler s url (.success r)).1 = s) ∧
     (apiDataHandler s url (.success r)).2 = .response r) ∧
    (cachesMatch s url = some cr → apiDataHandler s url .failure = (s, .response cr)) ∧
    (cachesMatch s url = none → apiDataHandler s url .failure = (s, .noResponse)) := by
  refine ⟨⟨?_, ?_, ?_⟩, ?_, ?_⟩
  · intro h200
    simp only [apiDataHandler, h200, beq_self_eq_true, if_true]
    exact cacheMatchIn_cachePut_self s DYNAMIC_CACHE url r
  · intro hne
    simp [apiDataHandler, hne]
  · by_cases h200 : (r.status == 200) = true <;> simp [apiDataHandler, h200]
  · intro hcr
    simp [apiDataHandler, hcr]
  · intro hnone
    simp [apiDataHandler, hnone]

/-- Witness for `apiData_strategy`: a 200 response ends up retrievable
from the dynamic partition; a failed fetch over an empty cache yields
no response. -/
theorem apiData_strategy_witness :
    cacheMatchIn (apiDataHandler [] "/api/x" (.success ⟨200, "d", "j"⟩)).1
      DYNAMIC_CACHE "/api/x" = some ⟨200, "d", "j"⟩ ∧
    apiDataHandler [] "/api/y" .failure = ([], .noResponse) :=
  ⟨(apiData_strategy [] "/api/x" ⟨200, "d", "j"⟩ ⟨200, "d", "j"⟩).1.1 rfl,
   (apiData_strategy [] "/api/y" ⟨200, "d", "j"⟩ ⟨200, "d", "j"⟩).2.2 rfl⟩

/-- C5: with no cached snapshot of `/index.html` in the static
partition, `checkForUpdates` raises no notification and never reports
NewVersionAvailable; when the fetch resolves with status 200 it reports
UpToDate. -/
theorem checkForUpdates_first_run (s : CacheState) (fo : FetchOutcome)
    (h : cacheMatchIn s STATIC_CACHE "/index.html" = none) :
    (checkForUpdates s fo).2.2 = [] ∧
    (checkForUpdates s fo).2.1 ≠ .NewVersionAvailable ∧
    (∀ r : Response, fo = .success r → r.status = 200 →
      (checkForUpdates s fo).2.1 = .UpToDate) := by
  have h' : cacheMatchIn (cachesOpen STATIC_CACHE s) STATIC_CACHE "/index.html"
      = none := by
    rw [cacheMatchIn_cachesOpen]; exact h
  cases fo with
  | failure =>
    exact ⟨rfl, by simp [checkForUpdates], fun r hr => by cases hr⟩
  | success r =>
    by_cases st : (r.status == 200) = true
    · have hres : checkForUpdates s (.success r)
          = (cachesOpen STATIC_CACHE s, .UpToDate, []) := by
        simp [checkForUpdates, st, h']
      rw [hres]
      exact ⟨rfl, by simp, fun r' hr' h200 => rfl⟩
    · have hres : checkForUpdates s (.success r)
          = (cachesOpen STATIC_CACHE s, .CheckFailed, []) := by
        simp [checkForUpdates, st]
      rw [hres]
      refine ⟨rfl, by simp, ?_⟩
      intro r' hr' h200
      injection hr' with hrr
      subst hrr
      exact absurd (by simp [h200]) st

/-- Witness for `checkForUpdates_first_run`: empty cache storage, a
fresh 200 fetch. -/
theorem checkForUpdates_first_run_witness :
    (checkForUpdates [] (.success ⟨200, "fresh", "text/html"⟩)).2.2 = [] ∧
    (checkForUpdates [] (.success ⟨200, "fresh", "text/html"⟩)).2.1 = .UpToDate :=
  ⟨(checkForUpdates_first_run [] (.success ⟨200, "fresh", "text/html"⟩) rfl).1,
   (checkForUpdates_first_run [] (.success ⟨200, "fresh", "text/html"⟩) rfl).2.2
     ⟨200, "fresh", "text/html"⟩ rfl rfl⟩

/-- C6: `checkForUpdates` writes nothing: every per-partition and
cross-partition lookup is unchanged, and every pre-existing partition
survives with its entries intact, whatever the fetch outcome. -/
theorem checkForUpdates_no_cache_write (s : CacheState) (fo : FetchOutcome) :
    (∀ name k, cacheMatchIn (checkForUpdates s fo).1 name k = cacheMatchIn s name k) ∧
    (∀ k, cachesMatch (checkForUpdates s fo).1 k = cachesMatch s k) ∧
    (∀ p, p ∈ s → p ∈ (checkForUpdates s fo).1) := by
  rw [checkForUpdates_state]
  exact ⟨fun name k => cacheMatchIn_cachesOpen STATIC_CACHE s name k,
    fun k => cachesMatch_cachesOpen STATIC_CACHE s k,
    fun p hp => mem_cachesOpen STATIC_CACHE hp⟩

/-- Witness for `checkForUpdates_no_cache_write`: a dynamic-partition
entry is still there, and still found, after a check that detected a
different fresh text. -/
theorem checkForUpdates_no_cache_write_witness :
    cacheMatchIn (checkForUpdates [⟨"dynamic-cache-v1", [("/a", ⟨200, "x", "j"⟩)]⟩]
        (.success ⟨200, "t", "h"⟩)).1 "dynamic-cache-v1" "/a" = some ⟨200, "x", "j"⟩ ∧
    (⟨"dynamic-cache-v1", [("/a", ⟨200, "x", "j"⟩)]⟩ : CachePartition) ∈
      (checkForUpdates [⟨"dynamic-cache-v1", [("/a", ⟨200, "x", "j"⟩)]⟩]
        (.success ⟨200, "t", "h"⟩)).1 :=
  ⟨((checkForUpdates_no_cache_write [⟨"dynamic-cache-v1", [("/a", ⟨200, "x", "j"⟩)]⟩]
      (.success ⟨200, "t", "h"⟩)).1 "dynamic-cache-v1" "/a").trans (by decide),
   (checkForUpdates_no_cache_write [⟨"dynamic-cache-v1", [("/a", ⟨200, "x", "j"⟩)]⟩]
      (.success ⟨200, "t", "h"⟩)).2.2 _ (List.mem_singleton.mpr rfl)⟩

/-- C7: the activate sweep keeps exactly the partitions whose names are
whitelisted — surviving names are the original names filtered by the
whitelist, membership after the sweep is membership before plus a
whitelisted name (entries untouched), and the spec's concrete scenario
drops exactly `old-cache-v0`. -/
theorem activate_sweep (s : CacheState) (e1 e2 e3 : List (String × Response)) :
    ((activateHandler s).map (fun p => p.name) =
      (s.map (fun p => p.name)).filter (fun n => cacheWhitelist.contains n)) ∧
    (∀ p : CachePartition, p ∈ activateHandler s ↔
      p ∈ s ∧ cacheWhitelist.contains p.name = true) ∧
    activateHandler
        [⟨"static-cache-v1", e1⟩, ⟨"dynamic-cache-v1", e2⟩, ⟨"old-cache-v0", e3⟩]
      = [⟨"static-cache-v1", e1⟩, ⟨"dynamic-cache-v1", e2⟩] := by
  refine ⟨activateHandler_names s, fun p => List.mem_filter, rfl⟩

/-- Witness for `activate_sweep`: a whitelisted partition is retained. -/
theorem activate_sweep_witness :
    (⟨"static-cache-v1", []⟩ : CachePartition) ∈
      activateHandler [⟨"static-cache-v1", []⟩, ⟨"old-cache-v0", []⟩] :=
  ((activate_sweep [⟨"static-cache-v1", []⟩, ⟨"old-cache-v0", []⟩] [] [] []).2.1
    ⟨"static-cache-v1", []⟩).mpr ⟨List.mem_cons_self _ _, by decide⟩

/-- C8: static-asset round-trip — for a request cached nowhere, the
miss path returns the fetched response and stores it so that an
immediate `caches.match` for the same request returns exactly it. -/
theorem staticAsset_roundtrip (s : CacheState) (url : String) (r : Response)
    (h : cachesMatch s url = none) :
    (staticAssetHandler s url (.success r)).2 = .response r ∧
    cachesMatch (staticAssetHandler s url (.success r)).1 url = some r := by
  have hstate : staticAssetHandler s url (.success r)
      = (cachePut s DYNAMIC_CACHE url r, .response r) := by
    simp [staticAssetHandler, h]
  rw [hstate]
  exact ⟨rfl, cachesMatch_cachePut_first s DYNAMIC_CACHE url r
    (fun p hp _ => cachesMatch_eq_none s url h p hp)⟩

/-- Witness for `staticAsset_roundtrip` on an empty cache storage. -/
theorem staticAsset_roundtrip_witness :
    (staticAssetHandler [] "/vendor.js" (.success ⟨200, "code", "text/javascript"⟩)).2
      = .response ⟨200, "code", "text/javascript"⟩ ∧
    cachesMatch (staticAssetHandler [] "/vendor.js"
        (.success ⟨200, "code", "text/javascript"⟩)).1 "/vendor.js"
      = some ⟨200, "code", "text/javascript"⟩ :=
  staticAsset_roundtrip [] "/vendor.js" ⟨200, "code", "text/javascript"⟩ rfl

/-- C9: no strategy and no message write touches any partition other
than the dynamic one — in particular the static partition's entries are
unchanged by the navigate, static-asset and api/data branches and by
every foreground message. -/
theorem strategies_never_write_static (s : CacheState) (url : String)
    (fo : FetchOutcome) (payload name : String) (h : name ≠ DYNAMIC_CACHE) :
    partitionEntries (navigateHandler s url fo).1 name = partitionEntries s name ∧
    partitionEntries (staticAssetHandler s url fo).1 name = partitionEntries s name ∧
    partitionEntries (apiDataHandler s url fo).1 name = partitionEntries s name ∧
    (∀ mt, partitionEntries (messageHandler s mt payload) name
      = partitionEntries s name) := by
  refine ⟨?_, ?_, ?_, ?_⟩
  · cases fo with
    | success r =>
      simp only [navigateHandler]
      exact partitionEntries_cachePut_ne s DYNAMIC_CACHE name url r h
    | failure =>
      simp only [navigateHandler]
      cases hm : cachesMatch s url with
      | some cr => rfl
      | none =>
        cases hm2 : cachesMatch s "/index.html" with
        | some ir => rfl
        | none => rfl
  · simp only [staticAssetHandler]
    cases hm : cachesMatch s url with
    | some cr =>
      cases fo with
      | success r => exact partitionEntries_cachePut_ne s DYNAMIC_CACHE name url r h
      | failure => rfl
    | none =>
      cases fo with
      | success r => exact partitionEntries_cachePut_ne s DYNAMIC_CACHE name url r h
      | failure =>
        by_cases hi : matchesExtAtEnd url imageExtensions = true <;> simp [hi]
  · cases fo with
    | success r =>
      simp only [apiDataHandler]
      by_cases st : (r.status == 200) = true
      · simp only [st, if_true]
        exact partitionEntries_cachePut_ne s DYNAMIC_CACHE name url r h
      · simp [st]
    | failure =>
      simp only [apiDataHandler]
      cases hm : cachesMatch s url with
      | some cr => rfl
      | none => rfl
  · intro mt
    unfold messageHandler
    by_cases hm : (mt == "CACHE_DATA") = true
    · simp only [hm, if_true]
      exact partitionEntries_cachePut_ne s DYNAMIC_CACHE name _ _ h
    · simp [hm]

/-- Witness for `strategies_never_write_static`: a successful
navigation leaves the static partition of the post-install state
untouched. -/
theorem strategies_never_write_static_witness :
    partitionEntries (navigateHandler postInstallState "/p" (.success rNewShell)).1
      STATIC_CACHE = partitionEntries postInstallState STATIC_CACHE :=
  (strategies_never_write_static postInstallState "/p" (.success rNewShell) "d"
    STATIC_CACHE (by decide)).1

/-- C10: the static-asset branch stores any resolved response without
looking at its status — on a miss it is stored and returned, on a hit
the background refresh overwrites the dynamic entry with it — while
the api/data branch leaves the cache untouched for a non-200 status. -/
theorem staticAsset_caches_any_status (s : CacheState) (url : String)
    (r cr : Response) :
    (cachesMatch s url = none →
      (staticAssetHandler s url (.success r)).2 = .response r ∧
      cacheMatchIn (staticAssetHandler s url (.success r)).1 DYNAMIC_CACHE url
        = some r) ∧
    (cachesMatch s url = some cr →
      (staticAssetHandler s url (.success r)).2 = .response cr ∧
      cacheMatchIn (staticAssetHandler s url (.success r)).1 DYNAMIC_CACHE url
        = some r) ∧
    (r.status ≠ 200 → (apiDataHandler s url (.success r)).1 = s) := by
  refine ⟨?_, ?_, ?_⟩
  · intro h
    have hstate : staticAssetHandler s url (.success r)
        = (cachePut s DYNAMIC_CACHE url r, .response r) := by
      simp [staticAssetHandler, h]
    rw [hstate]
    exact ⟨rfl, cacheMatchIn_cachePut_self s DYNAMIC_CACHE url r⟩
  · intro h
    have hstate : staticAssetHandler s url (.success r)
        = (cachePut s DYNAMIC_CACHE url r, .response cr) := by
      simp [staticAssetHandler, h]
    rw [hstate]
    exact ⟨rfl, cacheMatchIn_cachePut_self s DYNAMIC_CACHE url r⟩
  · intro hne
    simp [apiDataHandler, hne]

/-- Witness for `staticAsset_caches_any_status`: a 404 response on a
miss is returned and cached by the static-asset branch, and ignored by
the api/data branch. -/
theorem staticAsset_caches_any_status_witness :
    (staticAssetHandler [] "/x.png" (.success ⟨404, "nf", "text/plain"⟩)).2
      = .response ⟨404, "nf", "text/plain"⟩ ∧
    cacheMatchIn (staticAssetHandler [] "/x.png"
        (.success ⟨404, "nf", "text/plain"⟩)).1 DYNAMIC_CACHE "/x.png"
      = some ⟨404, "nf", "text/plain"⟩ ∧
    (apiDataHandler [] "/x.png" (.success ⟨404, "nf", "text/plain"⟩)).1 = [] :=
  ⟨((staticAsset_caches_any_status [] "/x.png" ⟨404, "nf", "text/plain"⟩
      ⟨404, "nf", "text/plain"⟩).1 rfl).1,
   ((staticAsset_caches_any_status [] "/x.png" ⟨404, "nf", "text/plain"⟩
      ⟨404, "nf", "text/plain"⟩).1 rfl).2,
   (staticAsset_caches_any_status [] "/x.png" ⟨404, "nf", "text/plain"⟩
      ⟨404, "nf", "text/plain"⟩).2.2 (by decide)⟩

/-- C1 counterexample: after install cached the old shell and a
navigation stored a newer shell in the dynamic partition (the most
recently stored copy for `/index.html`), an offline navigation's cache
lookup returns the install-time static copy, not the newer one — the
static partition comes first in `caches.match`'s creation order. -/
theorem navigate_offline_stale_copy_counterexample :
    cacheMatchIn afterNavigateState DYNAMIC_CACHE "/index.html" = some rNewShell ∧
    (navigateHandler afterNavigateState "/index.html" .failure).2
      = .response rOldShell ∧
    rOldShell ≠ rNewShell := by decide

/-- C1 (amended): for a navigation request whose URL has no entry in
any partition other than the dynamic one (in particular, not an
install-time static asset), once a navigate fetch stored its response,
a later offline navigation's cache lookup returns exactly that most
recently stored response; when an earlier-created partition such as the
static one holds an entry for the same URL, that older copy is returned
instead. -/
theorem navigate_offline_returns_latest (s : CacheState) (url : String)
    (r : Response)
    (h : ∀ p ∈ s, p.name ≠ DYNAMIC_CACHE → entriesLookup p.entries url = none) :
    (navigateHandler (navigateHandler s url (.success r)).1 url .failure).2
      = .response r := by
  have hm : cachesMatch (cachePut s DYNAMIC_CACHE url r) url = some r :=
    cachesMatch_cachePut_first s DYNAMIC_CACHE url r h
  simp [navigateHandler, hm]

/-- Witness for `navigate_offline_returns_latest`: a page URL outside
the static asset list, starting from the post-install state. -/
theorem navigate_offline_returns_latest_witness :
    (navigateHandler (navigateHandler postInstallState "/page"
      (.success rNewShell)).1 "/page" .failure).2 = .response rNewShell :=
  navigate_offline_returns_latest postInstallState "/page" rNewShell (by decide)

end SW
